import Mathlib

/-!
# Verification of the Moustache property-search service (`src/main.go`)

Shallow embedding of the query-resolution pipeline of `main.go`:
normalization, exact/fuzzy reference-location matching (Levenshtein),
radius filtering, distance ranking, and the response cache.

Modelling conventions:
* Go strings are Lean `String`; `strings.ToLower` / `strings.TrimSpace`
  are modelled by `toLower` / `trimSpace` below (character-list maps),
  adequate for the ASCII data of this program.
* Coordinates are exact rationals (the claims never depend on
  floating-point rounding; no claim performs real trigonometry).
* `calculateDistance` wraps the external `golang-geo` great-circle
  routine, so the pipeline is parametric in a distance function
  `d : ℚ → ℚ → ℚ → ℚ → ℚ` with the same argument order
  (lat1 lon1 lat2 lon2).
* `sort.Slice` (main.go line 151) is documented by Go as *not* stable;
  the pipeline is therefore parametric in a sorting function `s`,
  constrained only by `SortSpec` (it returns a permutation of its input
  that is sorted by ascending distance) — exactly the contract
  `sort.Slice` guarantees for the comparator
  `results[i].Distance < results[j].Distance`.
* The Go map `cityCenters` has deterministic lookup but unspecified
  iteration order; functions that iterate it (`findBestCityMatch`)
  are parametric in an enumeration order `o : List String` of its keys.
* The Go map `searchCache` is modelled as an association list with
  overwriting insert (`cachePut`) and first-match lookup (`cacheFind?`).
-/

namespace FormiSearch

/-- Decimal literal as an exact rational: `deci n k` is `n / 10^k`.
Coordinate literals of `main.go` are embedded through this helper (it is
kernel-reducible, unlike the `OfScientific` elaboration of `24.5854`). -/
def deci (n : Int) (k : Nat) : ℚ := mkRat n (10 ^ k)

/-- Models `strings.ToLower` (ASCII-adequate): lowercase every character. -/
def toLower (s : String) : String :=
  ⟨s.data.map Char.toLower⟩

/-- Models `strings.TrimSpace`: drop whitespace from both ends. -/
def trimSpace (s : String) : String :=
  ⟨((s.data.dropWhile Char.isWhitespace).reverse.dropWhile Char.isWhitespace).reverse⟩

/-! ## Levenshtein distance (models `agnivade/levenshtein.ComputeDistance`)

The library computes the classical unit-cost Levenshtein distance with a
single dynamic-programming row; we embed the same row recurrence. -/

/-- One cell-chain of the DP row update: walking along `t` with the rest of
the previous row; `diag` is the previous row's entry one step back, `left`
the entry just computed for the new row. -/
def levRowAux (a : Char) : List Char → List Nat → Nat → Nat → List Nat
  | [], _, _, _ => []
  | _, [], _, _ => []
  | b :: t, above :: rest, diag, left =>
    let cost := if a = b then 0 else 1
    let cur := min (above + 1) (min (left + 1) (diag + cost))
    cur :: levRowAux a t rest above cur

/-- Update the DP row for one further character `a` of the source string. -/
def levRowStep (a : Char) (t : List Char) (row : List Nat) : List Nat :=
  match row with
  | [] => []
  | r0 :: rest => (r0 + 1) :: levRowAux a t rest r0 (r0 + 1)

/-- Unit-cost Levenshtein distance between two character lists
(insertions, deletions, substitutions each cost 1). -/
def levenshtein (s t : List Char) : Nat :=
  (s.foldl (fun row a => levRowStep a t row) (List.range (t.length + 1))).getLastD 0

/-! ## Data model (main.go lines 18–76) -/

/-- Models `Property` (main.go line 18): a catalog entry. -/
structure Property where
  name : String
  latitude : ℚ
  longitude : ℚ
deriving DecidableEq, Repr

/-- Models `PropertyResponse` (main.go line 24): one result row. -/
structure PropertyResponse where
  name : String
  distance : ℚ
  latitude : ℚ
  longitude : ℚ
deriving DecidableEq, Repr

/-- Models `SearchResponse` (main.go line 31). -/
structure SearchResponse where
  properties : List PropertyResponse
  message : String
deriving DecidableEq, Repr

/-- The static catalog `properties` (main.go lines 36–60). -/
def properties : List Property :=
  [⟨"Moustache Udaipur Luxuria", deci 2457799888 8, deci 7368263271 8⟩,
   ⟨"Moustache Udaipur", deci 2458145726 8, deci 7368223671 8⟩,
   ⟨"Moustache Udaipur Verandah", deci 2458350565 8, deci 7368120777 8⟩,
   ⟨"Moustache Jaipur", deci 2729124839 8, deci 7589630143 8⟩,
   ⟨"Moustache Jaisalmer", deci 2720578572 8, deci 7085906998 8⟩,
   ⟨"Moustache Jodhpur", deci 2630365556 8, deci 7303570908 8⟩,
   ⟨"Moustache Agra", deci 2726156953 8, deci 7807524716 8⟩,
   ⟨"Moustache Delhi", deci 2861257139 8, deci 7728423582 8⟩,
   ⟨"Moustache Rishikesh Luxuria", deci 3013769036 8, deci 7832465767 8⟩,
   ⟨"Moustache Rishikesh Riverside Resort", deci 3010216117 8, deci 7838458848 8⟩,
   ⟨"Moustache Hostel Varanasi", deci 252992622 7, deci 8299691388 8⟩,
   ⟨"Moustache Goa Luxuria", deci 156135195 7, deci 7375705228 8⟩,
   ⟨"Moustache Koksar Luxuria", deci 324357785 7, deci 7718518717 8⟩,
   ⟨"Moustache Daman", deci 2041486263 8, deci 7283282455 8⟩,
   ⟨"Panarpani Retreat", deci 2252805539 8, deci 7843116291 8⟩,
   ⟨"Moustache Pushkar", deci 2648080513 8, deci 745613783 7⟩,
   ⟨"Moustache Khajuraho", deci 2484602104 8, deci 7993139381 8⟩,
   ⟨"Moustache Manali", deci 3228818695 8, deci 7717702523 8⟩,
   ⟨"Moustache Bhintal Luxuria", deci 2936552248 8, deci 7953481747 8⟩,
   ⟨"Moustache Srinagar", deci 3411547314 8, deci 7488701741 8⟩,
   ⟨"Moustache Ranthambore Luxuria", deci 2605471373 8, deci 7642953726 8⟩,
   ⟨"Moustache Coimbatore", deci 1102064612 8, deci 7696293531 8⟩,
   ⟨"Moustache Shoja", deci 3156341267 8, deci 7736733331 8⟩]

/-- The reference-location map `cityCenters` (main.go lines 62–71),
as key/coordinate pairs; Go-map *lookup* is over this fixed set. -/
def cityCenters : List (String × ℚ × ℚ) :=
  [("udaipur", deci 245854 4, deci 737125 4),
   ("jaipur", deci 269124 4, deci 757873 4),
   ("jaisalmer", deci 269157 4, deci 709083 4),
   ("delih", deci 287041 4, deci 771025 4),
   ("udiapur", deci 245854 4, deci 737125 4)]

/-- The key set of `cityCenters`, in declaration order (one possible
iteration order of the Go map). -/
def cityKeys : List String :=
  cityCenters.map Prod.fst

/-- Lookup `cityCenters[k]` (comma-ok form). -/
def lookupCity (k : String) : Option (ℚ × ℚ) :=
  List.lookup k cityCenters

/-- Lookup `cityCenters[k]` in value position: Go returns the zero value on a
missing key. -/
def lookupCityD (k : String) : ℚ × ℚ :=
  (lookupCity k).getD (0, 0)

/-! ## Fuzzy matcher (main.go lines 84–96) -/

/-- The loop of `findBestCityMatch`: running minimum distance and best
candidate over the remaining iteration order. -/
def bestMatchAux (q : List Char) : List String → Nat → String → String
  | [], _, best => best
  | city :: rest, minD, best =>
    let d := levenshtein q city.data
    if d < minD then bestMatchAux q rest d city else bestMatchAux q rest minD best

/-- Models `findBestCityMatch` (main.go lines 84–96), parametric in the map
iteration order `o`: lowercase the query, scan candidates keeping the
first strict improvement, starting from threshold distance 2 and empty
best match. -/
def findBestCityMatch (o : List String) (query : String) : String :=
  bestMatchAux (toLower query).data o 2 ""

/-! ## Resolution (main.go lines 111–125) -/

/-- The resolution step of `searchProperties` (lines 111–125): exact
`cityCenters` lookup of the lowercased (already trimmed) query, else
fuzzy match; returns the cache key to store under together with the
target coordinates, or `none` when unresolved. On an exact match the Go
code leaves `cacheKey` as the lowercased query — which is the matched
key itself; on a fuzzy match it reassigns `cacheKey = bestMatch`. -/
def resolve (o : List String) (query : String) : Option (String × ℚ × ℚ) :=
  match lookupCity (toLower query) with
  | some coords => some (toLower query, coords)
  | none =>
    let bestMatch := findBestCityMatch o query
    if bestMatch = "" then none
    else some (bestMatch, lookupCityD bestMatch)

/-! ## Response cache (main.go lines 73–76, 102–109, 132–134, 168–170) -/

/-- Models `searchCache` as an association list. -/
def Cache : Type := List (String × SearchResponse)

instance : DecidableEq Cache :=
  inferInstanceAs (DecidableEq (List (String × SearchResponse)))

/-- The empty cache (startup state). -/
def emptyCache : Cache := ([] : List (String × SearchResponse))

/-- Read `searchCache[k]` (comma-ok read). -/
def cacheFind? (c : Cache) (k : String) : Option SearchResponse :=
  (List.find? (fun e => e.1 == k) c).map Prod.snd

/-- Write `searchCache[k] = r`: Go map assignment overwrites any previous
binding of `k`. -/
def cachePut (c : Cache) (k : String) (r : SearchResponse) : Cache :=
  (k, r) :: List.filter (fun e => !(e.1 == k)) c

/-! ## Search pipeline (main.go lines 98–174) -/

/-- The radius filter (main.go lines 138–149): for every catalog entry
compute the distance from the target and keep it iff the distance is at
most 50 km, building the response rows in catalog order. Parametric in
the distance function `d` (models `calculateDistance`, lines 78–82). -/
def withinRadius (d : ℚ → ℚ → ℚ → ℚ → ℚ) (coords : ℚ × ℚ) : List PropertyResponse :=
  properties.filterMap fun p =>
    if d coords.1 coords.2 p.latitude p.longitude ≤ 50 then
      some ⟨p.name, d coords.1 coords.2 p.latitude p.longitude, p.latitude, p.longitude⟩
    else none

/-- The response built for a resolved target (main.go lines 138–166):
radius-filtered rows, sorted by the `sort.Slice` model `s`, with the
empty / "Found N" message logic. -/
def resolvedResponse (d : ℚ → ℚ → ℚ → ℚ → ℚ)
    (s : List PropertyResponse → List PropertyResponse)
    (coords : ℚ × ℚ) : SearchResponse :=
  let results := s (withinRadius d coords)
  if results.isEmpty then
    ⟨[], "No properties found within 50km"⟩
  else
    ⟨results, "Found " ++ toString results.length ++ " properties within 50km"⟩

/-- The post-probe body of `searchProperties` (main.go lines 111–173):
resolve, and on failure cache "Location not recognized" under the
normalized query; on success filter by radius, sort by distance (the
sorting function `s` models `sort.Slice`, line 151), build the message,
and cache under the resolved key. `query` is the already-trimmed query. -/
def computeAndStore (d : ℚ → ℚ → ℚ → ℚ → ℚ)
    (s : List PropertyResponse → List PropertyResponse)
    (o : List String) (cache : Cache) (query : String) : SearchResponse × Cache :=
  match resolve o query with
  | none =>
    let response : SearchResponse := ⟨[], "Location not recognized"⟩
    (response, cachePut cache (toLower query) response)
  | some (cacheKey, coords) =>
    (resolvedResponse d s coords, cachePut cache cacheKey (resolvedResponse d s coords))

/-- Models `searchProperties` (main.go lines 98–174): trim the raw query, probe
the cache under the lowercased trimmed query (lines 100–109; a hit
returns the stored response and leaves the cache unchanged), otherwise
resolve, search, and store. Returns the response and the new cache. -/
def searchProperties (d : ℚ → ℚ → ℚ → ℚ → ℚ)
    (s : List PropertyResponse → List PropertyResponse)
    (o : List String) (cache : Cache) (rawQuery : String) : SearchResponse × Cache :=
  let query := trimSpace rawQuery
  match cacheFind? cache (toLower query) with
  | some cached => (cached, cache)
  | none => computeAndStore d s o cache query

/-- Models `searchHandler` (main.go lines 176–186): reject an empty `q`
parameter with 400 (modelled as `none`); otherwise run
`searchProperties` on the raw parameter. -/
def searchHandler (d : ℚ → ℚ → ℚ → ℚ → ℚ)
    (s : List PropertyResponse → List PropertyResponse)
    (o : List String) (cache : Cache) (q : String) : Option (SearchResponse × Cache) :=
  if q = "" then none else some (searchProperties d s o cache q)

/-! ## Sorting contract for `sort.Slice` -/

/-- Ascending-distance order on response rows (the comparator of
main.go line 151 is `results[i].Distance < results[j].Distance`;
a slice sorted for that comparator is exactly one sorted by `≤`). -/
def distLE (a b : PropertyResponse) : Prop := a.distance ≤ b.distance

instance : DecidableRel distLE :=
  fun a b => inferInstanceAs (Decidable (a.distance ≤ b.distance))

instance : IsTotal PropertyResponse distLE := ⟨fun a b => le_total a.distance b.distance⟩

instance : IsTrans PropertyResponse distLE := ⟨fun _ _ _ h h' => le_trans h h'⟩

/-- The guarantee Go documents for `sort.Slice`: the output is a
permutation of the input, sorted ascending by distance. Stability is
deliberately *not* part of this contract (`sort.Slice` is documented as
not stable). -/
def SortSpec (s : List PropertyResponse → List PropertyResponse) : Prop :=
  ∀ l, (s l).Perm l ∧ (s l).Sorted distLE

/-- A concrete admissible sorting function (stable insertion sort). -/
def sortByDistance (l : List PropertyResponse) : List PropertyResponse :=
  List.insertionSort distLE l

/-- Another admissible sorting function: sort the *reversed* list.
It meets the `sort.Slice` contract but reverses the relative order of
equal-distance rows. -/
def revSortByDistance (l : List PropertyResponse) : List PropertyResponse :=
  List.insertionSort distLE l.reverse

/-- A degenerate distance function (all distances zero), used to
instantiate the distance parameter in concrete evaluations. -/
def dist0 : ℚ → ℚ → ℚ → ℚ → ℚ := fun _ _ _ _ => 0

/-- Position of a property name in the catalog (catalog iteration order). -/
def nameIndex (n : String) : Nat :=
  properties.findIdx (fun p => p.name == n)

/-- Checks the stability requirement of the spec: any two result rows with
equal distance appear in catalog order. -/
def tiesRespectCatalog : List PropertyResponse → Bool
  | [] => true
  | a :: rest =>
    (rest.all fun b =>
      decide (a.distance = b.distance → nameIndex a.name ≤ nameIndex b.name)) &&
    tiesRespectCatalog rest

/-- An alternative iteration order of the `cityCenters` keys
(Go map iteration order is unspecified): "jaipur" before "udaipur". -/
def jaipurFirstKeys : List String :=
  ["jaipur", "udaipur", "jaisalmer", "delih", "udiapur"]

/-! ## Basic lemmas -/

/-- The Levenshtein distance from the empty string is the length of the
other string. -/
theorem levenshtein_nil (t : List Char) : levenshtein [] t = t.length := by
  simp [levenshtein, List.getLastD_eq_getLast?, List.range_succ]

/-- Characterization of the `findBestCityMatch` loop: starting from any
running minimum and best candidate, the loop either leaves the best
candidate unchanged (and every remaining candidate is at distance at
least the running minimum), or returns a remaining candidate whose
distance beats the running minimum and is minimal among the remaining
candidates. -/
theorem bestMatchAux_spec (q : List Char) (cs : List String) :
    ∀ (minD : Nat) (best : String),
      (bestMatchAux q cs minD best = best ∧
        ∀ c ∈ cs, minD ≤ levenshtein q c.data) ∨
      (bestMatchAux q cs minD best ∈ cs ∧
        levenshtein q (bestMatchAux q cs minD best).data < minD ∧
        ∀ c ∈ cs, levenshtein q (bestMatchAux q cs minD best).data ≤ levenshtein q c.data) := by
  induction cs with
  | nil => intro minD best; left; exact ⟨rfl, by simp⟩
  | cons city rest ih =>
    intro minD best
    simp only [bestMatchAux]
    by_cases h : levenshtein q city.data < minD
    · rw [if_pos h]
      rcases ih (levenshtein q city.data) city with ⟨heq, hall⟩ | ⟨hmem, hlt, hmin⟩
      · right
        rw [heq]
        refine ⟨List.mem_cons_self _ _, h, ?_⟩
        intro c hc
        rcases List.mem_cons.mp hc with rfl | hc
        · exact le_refl _
        · exact hall c hc
      · right
        refine ⟨List.mem_cons_of_mem _ hmem, lt_trans hlt h, ?_⟩
        intro c hc
        rcases List.mem_cons.mp hc with rfl | hc
        · exact le_of_lt hlt
        · exact hmin c hc
    · rw [if_neg h]
      rcases ih minD best with ⟨heq, hall⟩ | ⟨hmem, hlt, hmin⟩
      · left
        refine ⟨heq, ?_⟩
        intro c hc
        rcases List.mem_cons.mp hc with rfl | hc
        · exact not_lt.mp h
        · exact hall c hc
      · right
        refine ⟨List.mem_cons_of_mem _ hmem, hlt, ?_⟩
        intro c hc
        rcases List.mem_cons.mp hc with rfl | hc
        · exact le_trans (le_of_lt hlt) (not_lt.mp h)
        · exact hmin c hc

/-- A freshly stored cache entry is found by a subsequent probe with the
same key. -/
theorem cacheFind?_cachePut_self (c : Cache) (k : String) (r : SearchResponse) :
    cacheFind? (cachePut c k r) k = some r := by
  simp [cacheFind?, cachePut, List.find?]

/-- Auxiliary: dropping the bindings of key `k` does not change lookup of
a different key `j`. -/
theorem find?_filter_ne (j k : String) (h : j ≠ k) :
    ∀ c : List (String × SearchResponse),
      List.find? (fun e => e.1 == j) (List.filter (fun e => !(e.1 == k)) c) =
      List.find? (fun e => e.1 == j) c := by
  intro c
  induction c with
  | nil => rfl
  | cons e rest ih =>
    by_cases hek : e.1 = k
    · have hej : ((fun e : String × SearchResponse => e.1 == j) e) = false := by
        simp [hek]
        exact fun hkj => h hkj.symm
      rw [List.filter_cons_of_neg (by simp [hek]),
        List.find?_cons_of_neg _ (by simp [hej]), ih]
    · by_cases he : e.1 = j
      · rw [List.filter_cons_of_pos (by simp [hek]),
          List.find?_cons_of_pos _ (by simp [he]),
          List.find?_cons_of_pos _ (by simp [he])]
      · rw [List.filter_cons_of_pos (by simp [hek]),
          List.find?_cons_of_neg _ (by simp [he]),
          List.find?_cons_of_neg _ (by simp [he]), ih]

/-- Storing under key `k` does not change the probe result for a
different key `j`. -/
theorem cacheFind?_cachePut_ne (c : Cache) (k j : String) (r : SearchResponse)
    (h : j ≠ k) :
    cacheFind? (cachePut c k r) j = cacheFind? c j := by
  have hkj : ¬(k = j) := fun hkj => h hkj.symm
  simp only [cacheFind?, cachePut]
  rw [List.find?_cons_of_neg _ (by simp [hkj]), find?_filter_ne j k h]

/-- Re-storing the same entry leaves the cache unchanged (Go map
assignment overwrites). -/
theorem cachePut_idem (c : Cache) (k : String) (r : SearchResponse) :
    cachePut (cachePut c k r) k r = cachePut c k r := by
  simp [cachePut, List.filter_cons, List.filter_filter]

/-- Unfolding: a cache hit returns the stored response and leaves the
cache unchanged (main.go lines 102–108). -/
theorem searchProperties_eq_hit {d : ℚ → ℚ → ℚ → ℚ → ℚ}
    {s : List PropertyResponse → List PropertyResponse}
    {o : List String} {c : Cache} {q : String} {r : SearchResponse}
    (h : cacheFind? c (toLower (trimSpace q)) = some r) :
    searchProperties d s o c q = (r, c) := by
  simp [searchProperties, h]

/-- Unfolding: a cache miss runs the resolution-and-search body. -/
theorem searchProperties_eq_miss {d : ℚ → ℚ → ℚ → ℚ → ℚ}
    {s : List PropertyResponse → List PropertyResponse}
    {o : List String} {c : Cache} {q : String}
    (h : cacheFind? c (toLower (trimSpace q)) = none) :
    searchProperties d s o c q = computeAndStore d s o c (trimSpace q) := by
  simp [searchProperties, h]

/-- Unfolding: failed resolution caches "Location not recognized" under
the normalized query (main.go lines 127–136). -/
theorem computeAndStore_unresolved {d : ℚ → ℚ → ℚ → ℚ → ℚ}
    {s : List PropertyResponse → List PropertyResponse}
    {o : List String} {c : Cache} {query : String}
    (h : resolve o query = none) :
    computeAndStore d s o c query =
      (⟨[], "Location not recognized"⟩,
        cachePut c (toLower query) ⟨[], "Location not recognized"⟩) := by
  simp [computeAndStore, h]

/-- Unfolding: successful resolution stores the search response under the
resolved cache key (main.go lines 138–170). -/
theorem computeAndStore_resolved {d : ℚ → ℚ → ℚ → ℚ → ℚ}
    {s : List PropertyResponse → List PropertyResponse}
    {o : List String} {c : Cache} {query k : String} {coords : ℚ × ℚ}
    (h : resolve o query = some (k, coords)) :
    computeAndStore d s o c query =
      (resolvedResponse d s coords, cachePut c k (resolvedResponse d s coords)) := by
  simp [computeAndStore, h]

/-- Unfolding: an exact `cityCenters` hit resolves to the lowercased
query itself as cache key (main.go lines 114–116). -/
theorem resolve_eq_exact {o : List String} {query : String} {coords : ℚ × ℚ}
    (h : lookupCity (toLower query) = some coords) :
    resolve o query = some (toLower query, coords) := by
  simp [resolve, h]

/-- Unfolding: with no exact hit, a nonempty fuzzy match resolves to the
matched key (main.go lines 117–124). -/
theorem resolve_eq_fuzzy {o : List String} {query : String} {k : String}
    (h : lookupCity (toLower query) = none)
    (hk : findBestCityMatch o query = k) (hne : k ≠ "") :
    resolve o query = some (k, lookupCityD k) := by
  simp [resolve, h, hk, hne]

/-- Unfolding: no exact hit and an empty fuzzy match mean unresolved. -/
theorem resolve_eq_none {o : List String} {query : String}
    (h1 : lookupCity (toLower query) = none)
    (h2 : findBestCityMatch o query = "") :
    resolve o query = none := by
  simp [resolve, h1, h2]

/-- The empty-message branch of `resolvedResponse`. -/
theorem resolvedResponse_empty {d : ℚ → ℚ → ℚ → ℚ → ℚ}
    {s : List PropertyResponse → List PropertyResponse} {coords : ℚ × ℚ}
    (h : (s (withinRadius d coords)).isEmpty = true) :
    resolvedResponse d s coords = ⟨[], "No properties found within 50km"⟩ := by
  simp [resolvedResponse, h]

/-- The "Found N" branch of `resolvedResponse`. -/
theorem resolvedResponse_nonempty {d : ℚ → ℚ → ℚ → ℚ → ℚ}
    {s : List PropertyResponse → List PropertyResponse} {coords : ℚ × ℚ}
    (h : (s (withinRadius d coords)).isEmpty = false) :
    resolvedResponse d s coords =
      ⟨s (withinRadius d coords),
        "Found " ++ toString (s (withinRadius d coords)).length ++
          " properties within 50km"⟩ := by
  simp [resolvedResponse, h]

/-- Membership in the radius filter: exactly the catalog entries whose
distance from the target is at most 50 km, with the computed row. -/
theorem mem_withinRadius (d : ℚ → ℚ → ℚ → ℚ → ℚ) (coords : ℚ × ℚ)
    (r : PropertyResponse) :
    r ∈ withinRadius d coords ↔
      ∃ p ∈ properties, d coords.1 coords.2 p.latitude p.longitude ≤ 50 ∧
        r = ⟨p.name, d coords.1 coords.2 p.latitude p.longitude,
              p.latitude, p.longitude⟩ := by
  simp only [withinRadius, List.mem_filterMap]
  constructor
  · rintro ⟨p, hp, hf⟩
    by_cases h50 : d coords.1 coords.2 p.latitude p.longitude ≤ 50
    · rw [if_pos h50] at hf
      exact ⟨p, hp, h50, (Option.some.inj hf).symm⟩
    · rw [if_neg h50] at hf
      cases hf
  · rintro ⟨p, hp, h50, rfl⟩
    exact ⟨p, hp, by rw [if_pos h50]⟩

/-- The insertion sort by distance meets the `sort.Slice` contract. -/
theorem sortSpec_sortByDistance : SortSpec sortByDistance := by
  intro l
  exact ⟨List.perm_insertionSort distLE l, List.sorted_insertionSort distLE l⟩

/-- Sorting the reversed list also meets the `sort.Slice` contract. -/
theorem sortSpec_revSortByDistance : SortSpec revSortByDistance := by
  intro l
  exact ⟨(List.perm_insertionSort distLE l.reverse).trans (List.reverse_perm l),
    List.sorted_insertionSort distLE l.reverse⟩

/-! ## Claim theorems -/

/-- C1: on a cache miss, `searchProperties` stores the computed response
under the resolved reference-location key when resolution succeeds
(exact matches resolve to the lowercased trimmed query, which is the
matched key itself; fuzzy matches resolve to the matched candidate), and
under the trimmed, lowercased raw query when resolution fails. -/
theorem searchProperties_stores_resolved_key
    (d : ℚ → ℚ → ℚ → ℚ → ℚ) (s : List PropertyResponse → List PropertyResponse)
    (o : List String) (c : Cache) (q k : String) (coords : ℚ × ℚ)
    (hmiss : cacheFind? c (toLower (trimSpace q)) = none) :
    (resolve o (trimSpace q) = some (k, coords) →
      (searchProperties d s o c q).2 = cachePut c k (searchProperties d s o c q).1) ∧
    (resolve o (trimSpace q) = none →
      (searchProperties d s o c q).2 =
        cachePut c (toLower (trimSpace q)) (searchProperties d s o c q).1) := by
  constructor
  · intro hres
    rw [searchProperties_eq_miss hmiss, computeAndStore_resolved hres]
  · intro hres
    rw [searchProperties_eq_miss hmiss, computeAndStore_unresolved hres]

/-- C1 witness: the misspelling "udaipr" fuzzy-resolves to "udaipur" and
the response is stored under "udaipur", not under the raw query. -/
theorem searchProperties_stores_resolved_key_witness :
    cacheFind? emptyCache (toLower (trimSpace "udaipr")) = none ∧
    resolve cityKeys (trimSpace "udaipr") =
      some ("udaipur", deci 245854 4, deci 737125 4) ∧
    (searchProperties dist0 sortByDistance cityKeys emptyCache "udaipr").2 =
      cachePut emptyCache "udaipur"
        (searchProperties dist0 sortByDistance cityKeys emptyCache "udaipr").1 :=
  ⟨by decide, by decide,
    (searchProperties_stores_resolved_key dist0 sortByDistance cityKeys emptyCache
      "udaipr" "udaipur" (deci 245854 4, deci 737125 4) (by decide)).1 (by decide)⟩

/-- C3: for every iteration order and query, `findBestCityMatch` either
returns the empty string with every candidate at Levenshtein distance at
least 2 from the lowercased query, or returns a candidate at distance
strictly below 2 that no other candidate beats. -/
theorem findBestCityMatch_min_distance (o : List String) (q : String) :
    (findBestCityMatch o q = "" ∧
      ∀ c ∈ o, 2 ≤ levenshtein (toLower q).data c.data) ∨
    (findBestCityMatch o q ∈ o ∧
      levenshtein (toLower q).data (findBestCityMatch o q).data < 2 ∧
      ∀ c ∈ o, levenshtein (toLower q).data (findBestCityMatch o q).data ≤
        levenshtein (toLower q).data c.data) :=
  bestMatchAux_spec (toLower q).data o 2 ""

/-- C3 witness: on the real key set, "udaipr" gets the qualifying
minimal match. -/
theorem findBestCityMatch_min_distance_witness :
    (findBestCityMatch cityKeys "udaipr" = "" ∧
      ∀ c ∈ cityKeys, 2 ≤ levenshtein (toLower "udaipr").data c.data) ∨
    (findBestCityMatch cityKeys "udaipr" ∈ cityKeys ∧
      levenshtein (toLower "udaipr").data (findBestCityMatch cityKeys "udaipr").data < 2 ∧
      ∀ c ∈ cityKeys,
        levenshtein (toLower "udaipr").data (findBestCityMatch cityKeys "udaipr").data ≤
          levenshtein (toLower "udaipr").data c.data) :=
  findBestCityMatch_min_distance cityKeys "udaipr"

/-- C5: `searchProperties` probes the cache with the trimmed, lowercased
raw query before any resolution: a stored response under exactly that
key is returned as-is (cache unchanged), and otherwise the full
resolution-and-search body runs — in particular a fuzzy misspelling of
an already-cached location does not hit. -/
theorem searchProperties_probe_raw_query
    (d : ℚ → ℚ → ℚ → ℚ → ℚ) (s : List PropertyResponse → List PropertyResponse)
    (o : List String) (c : Cache) (q : String) :
    (∀ r, cacheFind? c (toLower (trimSpace q)) = some r →
      searchProperties d s o c q = (r, c)) ∧
    (cacheFind? c (toLower (trimSpace q)) = none →
      searchProperties d s o c q = computeAndStore d s o c (trimSpace q)) := by
  constructor
  · intro r h
    exact searchProperties_eq_hit h
  · intro h
    exact searchProperties_eq_miss h

/-- C5 witness: with "udaipur" already cached, the misspelling "udaipr"
misses the probe and recomputes. -/
theorem searchProperties_probe_raw_query_witness :
    cacheFind? (cachePut emptyCache "udaipur" ⟨[], "cached"⟩)
        (toLower (trimSpace "udaipr")) = none ∧
    searchProperties dist0 sortByDistance cityKeys
        (cachePut emptyCache "udaipur" ⟨[], "cached"⟩) "udaipr" =
      computeAndStore dist0 sortByDistance cityKeys
        (cachePut emptyCache "udaipur" ⟨[], "cached"⟩) (trimSpace "udaipr") :=
  ⟨by decide,
    (searchProperties_probe_raw_query dist0 sortByDistance cityKeys
      (cachePut emptyCache "udaipur" ⟨[], "cached"⟩) "udaipr").2 (by decide)⟩

/-- C6: on a cache miss, failed resolution yields the empty response with
message "Location not recognized"; successful resolution yields either
"No properties found within 50km" on an empty result, or
"Found N properties within 50km" where N is the length of the returned
property list. -/
theorem searchProperties_message_cases
    (d : ℚ → ℚ → ℚ → ℚ → ℚ) (s : List PropertyResponse → List PropertyResponse)
    (o : List String) (c : Cache) (q : String)
    (hmiss : cacheFind? c (toLower (trimSpace q)) = none) :
    (resolve o (trimSpace q) = none →
      (searchProperties d s o c q).1 = ⟨[], "Location not recognized"⟩) ∧
    (∀ k coords, resolve o (trimSpace q) = some (k, coords) →
      ((s (withinRadius d coords)).isEmpty = true →
        (searchProperties d s o c q).1 = ⟨[], "No properties found within 50km"⟩) ∧
      ((s (withinRadius d coords)).isEmpty = false →
        (searchProperties d s o c q).1.properties = s (withinRadius d coords) ∧
        (searchProperties d s o c q).1.message =
          "Found " ++ toString (searchProperties d s o c q).1.properties.length ++
            " properties within 50km")) := by
  constructor
  · intro hres
    rw [searchProperties_eq_miss hmiss, computeAndStore_unresolved hres]
  · intro k coords hres
    constructor
    · intro hemp
      rw [searchProperties_eq_miss hmiss, computeAndStore_resolved hres]
      show resolvedResponse d s coords = _
      exact resolvedResponse_empty hemp
    · intro hne
      rw [searchProperties_eq_miss hmiss, computeAndStore_resolved hres]
      show (resolvedResponse d s coords).properties = _ ∧
        (resolvedResponse d s coords).message = _
      rw [resolvedResponse_nonempty hne]
      exact ⟨rfl, rfl⟩

/-- C6 witness: "udaipur" resolves and (with the all-zero distance
instance) returns all 23 catalog properties with the "Found 23" message;
"xyzzy" is unresolved. -/
theorem searchProperties_message_cases_witness :
    ((searchProperties dist0 sortByDistance cityKeys emptyCache "udaipur").1.properties =
        sortByDistance (withinRadius dist0 (deci 245854 4, deci 737125 4)) ∧
      (searchProperties dist0 sortByDistance cityKeys emptyCache "udaipur").1.message =
        "Found " ++
          toString (searchProperties dist0 sortByDistance cityKeys
            emptyCache "udaipur").1.properties.length ++
          " properties within 50km") ∧
    (searchProperties dist0 sortByDistance cityKeys emptyCache "xyzzy").1 =
      ⟨[], "Location not recognized"⟩ :=
  ⟨((searchProperties_message_cases dist0 sortByDistance cityKeys emptyCache
      "udaipur" (by decide)).2 "udaipur" (deci 245854 4, deci 737125 4)
      (by decide)).2 (by decide),
    (searchProperties_message_cases dist0 sortByDistance cityKeys emptyCache
      "xyzzy" (by decide)).1 (by decide)⟩

/-- C2 (amended): for any sorting function meeting the `sort.Slice`
contract, every response computed on a cache miss has its property list
sorted ascending by distance. -/
theorem searchProperties_sorted_by_distance
    (d : ℚ → ℚ → ℚ → ℚ → ℚ) (s : List PropertyResponse → List PropertyResponse)
    (hs : SortSpec s) (o : List String) (c : Cache) (q : String)
    (hmiss : cacheFind? c (toLower (trimSpace q)) = none) :
    ((searchProperties d s o c q).1.properties).Sorted distLE := by
  rw [searchProperties_eq_miss hmiss]
  rcases hres : resolve o (trimSpace q) with _ | ⟨k, coords⟩
  · rw [computeAndStore_unresolved hres]
    exact List.sorted_nil
  · rw [computeAndStore_resolved hres]
    show ((resolvedResponse d s coords).properties).Sorted distLE
    rcases hemp : (s (withinRadius d coords)).isEmpty with _ | _
    · rw [resolvedResponse_nonempty hemp]
      exact (hs (withinRadius d coords)).2
    · rw [resolvedResponse_empty hemp]
      exact List.sorted_nil

/-- C2 witness: a concrete sorted run on the real key set. -/
theorem searchProperties_sorted_by_distance_witness :
    ((searchProperties dist0 sortByDistance cityKeys
      emptyCache "udaipur").1.properties).Sorted distLE :=
  searchProperties_sorted_by_distance dist0 sortByDistance
    sortSpec_sortByDistance cityKeys emptyCache "udaipur" (by decide)

/-- C2 counterexample: `sort.Slice` is not stable, so the claim that
equal-distance rows appear in catalog iteration order fails: a sorting
function meeting the `sort.Slice` contract (`revSortByDistance`)
produces, for the resolved query "udaipur" and a distance function under
which all rows tie, a result list violating catalog order on ties. -/
theorem searchProperties_tie_order_counterexample :
    SortSpec revSortByDistance ∧
    tiesRespectCatalog
      ((searchProperties dist0 revSortByDistance cityKeys
        emptyCache "udaipur").1.properties) = false ∧
    tiesRespectCatalog
      ((searchProperties dist0 sortByDistance cityKeys
        emptyCache "udaipur").1.properties) = true :=
  ⟨sortSpec_revSortByDistance, by decide, by decide⟩

/-- C4: on a cache miss with resolved target, the returned property list
contains exactly the rows of catalog entries whose distance from the
target is at most 50 (inclusive); nothing farther ever appears. -/
theorem searchProperties_radius_filter
    (d : ℚ → ℚ → ℚ → ℚ → ℚ) (s : List PropertyResponse → List PropertyResponse)
    (hs : SortSpec s) (o : List String) (c : Cache) (q k : String)
    (coords : ℚ × ℚ) (r : PropertyResponse)
    (hmiss : cacheFind? c (toLower (trimSpace q)) = none)
    (hres : resolve o (trimSpace q) = some (k, coords)) :
    r ∈ (searchProperties d s o c q).1.properties ↔
      ∃ p ∈ properties, d coords.1 coords.2 p.latitude p.longitude ≤ 50 ∧
        r = ⟨p.name, d coords.1 coords.2 p.latitude p.longitude,
              p.latitude, p.longitude⟩ := by
  rw [searchProperties_eq_miss hmiss, computeAndStore_resolved hres]
  show r ∈ (resolvedResponse d s coords).properties ↔ _
  rw [← mem_withinRadius d coords r]
  rcases hemp : (s (withinRadius d coords)).isEmpty with _ | _
  · rw [resolvedResponse_nonempty hemp]
    exact (hs (withinRadius d coords)).1.mem_iff
  · rw [resolvedResponse_empty hemp]
    have hnil : s (withinRadius d coords) = [] := List.isEmpty_iff.mp hemp
    have hperm := (hs (withinRadius d coords)).1
    rw [hnil] at hperm
    rw [← hperm.symm.eq_nil]

/-- C4 witness: instantiated at the resolved query "udaipur" with the
all-zero distance function, for the first catalog row. -/
theorem searchProperties_radius_filter_witness :
    (⟨"Moustache Udaipur Luxuria", 0, deci 2457799888 8, deci 7368263271 8⟩ : PropertyResponse) ∈
      (searchProperties dist0 sortByDistance cityKeys emptyCache "udaipur").1.properties ↔
      ∃ p ∈ properties,
        dist0 (deci 245854 4) (deci 737125 4) p.latitude p.longitude ≤ 50 ∧
        (⟨"Moustache Udaipur Luxuria", 0, deci 2457799888 8, deci 7368263271 8⟩ : PropertyResponse) =
          ⟨p.name, dist0 (deci 245854 4) (deci 737125 4) p.latitude p.longitude,
            p.latitude, p.longitude⟩ :=
  searchProperties_radius_filter dist0 sortByDistance sortSpec_sortByDistance
    cityKeys emptyCache "udaipur" "udaipur" (deci 245854 4, deci 737125 4)
    ⟨"Moustache Udaipur Luxuria", 0, deci 2457799888 8, deci 7368263271 8⟩
    (by decide) (by decide)

/-- C7: "udiapur" is a pre-seeded `cityCenters` key with coordinates
(24.5854, 73.7125), so it resolves through the exact-match branch —
for every iteration order of the key set (the fuzzy matcher is never
consulted) — and is never unresolved. -/
theorem udiapur_preseeded_exact_match :
    lookupCity "udiapur" = some (24.5854, 73.7125) ∧
    ∀ o : List String, resolve o "udiapur" = some ("udiapur", 24.5854, 73.7125) := by
  have h24 : (24.5854 : ℚ) = deci 245854 4 := by
    rw [deci, Rat.mkRat_eq_div]
    norm_num
  have h73 : (73.7125 : ℚ) = deci 737125 4 := by
    rw [deci, Rat.mkRat_eq_div]
    norm_num
  have htl : toLower "udiapur" = "udiapur" := by decide
  have hl : lookupCity "udiapur" = some (deci 245854 4, deci 737125 4) := by decide
  constructor
  · rw [h24, h73]
    exact hl
  · intro o
    rw [h24, h73]
    have h := @resolve_eq_exact o "udiapur" (deci 245854 4, deci 737125 4)
      (by rw [htl]; exact hl)
    rw [h, htl]

/-- C7 witness: instantiated at the catalog iteration order. -/
theorem udiapur_preseeded_exact_match_witness :
    resolve cityKeys "udiapur" = some ("udiapur", 24.5854, 73.7125) :=
  udiapur_preseeded_exact_match.2 cityKeys

/-- C8 (amended): for a fixed iteration order, `searchProperties` is
deterministic and caching is consistent: running the same query again on
the resulting cache returns the same response and leaves the cache
unchanged — whether the second run is a cache hit (unresolved and
exact-match flows) or a recomputation that overwrites the same entry
(fuzzy flow, whose store key differs from the probe key). -/
theorem searchProperties_repeated_query_consistent
    (d : ℚ → ℚ → ℚ → ℚ → ℚ) (s : List PropertyResponse → List PropertyResponse)
    (o : List String) (c : Cache) (q : String) :
    searchProperties d s o (searchProperties d s o c q).2 q =
      searchProperties d s o c q := by
  rcases hprobe : cacheFind? c (toLower (trimSpace q)) with _ | r
  · rw [searchProperties_eq_miss hprobe]
    rcases hres : resolve o (trimSpace q) with _ | ⟨k, coords⟩
    · rw [computeAndStore_unresolved hres]
      exact searchProperties_eq_hit (cacheFind?_cachePut_self c (toLower (trimSpace q)) _)
    · rw [computeAndStore_resolved hres]
      by_cases hk : toLower (trimSpace q) = k
      · subst hk
        exact searchProperties_eq_hit
          (cacheFind?_cachePut_self c (toLower (trimSpace q)) _)
      · have h2 : cacheFind? (cachePut c k (resolvedResponse d s coords))
            (toLower (trimSpace q)) = none := by
          rw [cacheFind?_cachePut_ne c k (toLower (trimSpace q)) _ hk]
          exact hprobe
        have h3 := @searchProperties_eq_miss d s o
          (cachePut c k (resolvedResponse d s coords)) q h2
        rw [h3, computeAndStore_resolved hres, cachePut_idem]
  · rw [searchProperties_eq_hit hprobe]
    exact searchProperties_eq_hit hprobe

/-- C8 counterexample: the outcome *does* depend on the iteration order
of the reference-location set. The query "daipur" is at Levenshtein
distance 1 from both "udaipur" and "jaipur"; under two iteration orders
that are permutations of each other, resolution yields different matched
keys and different target coordinates, so cache keys and search results
differ. -/
theorem resolve_depends_on_iteration_order :
    List.Perm cityKeys jaipurFirstKeys ∧
    resolve cityKeys "daipur" = some ("udaipur", deci 245854 4, deci 737125 4) ∧
    resolve jaipurFirstKeys "daipur" = some ("jaipur", deci 269124 4, deci 757873 4) ∧
    resolve cityKeys "daipur" ≠ resolve jaipurFirstKeys "daipur" := by
  refine ⟨?_, by decide, by decide, by decide⟩
  show List.Perm ("udaipur" :: "jaipur" :: ["jaisalmer", "delih", "udiapur"])
    ("jaipur" :: "udaipur" :: ["jaisalmer", "delih", "udiapur"])
  exact List.Perm.swap "jaipur" "udaipur" ["jaisalmer", "delih", "udiapur"]

/-- C9: a non-empty but all-whitespace query parameter passes the
handler's emptiness check (no 400), trims to the empty string, fails
resolution (every reference key has length at least 2, and the distance
from the empty string is the key's length), and the "Location not
recognized" response is returned and cached under the empty-string key. -/
theorem searchHandler_whitespace_query
    (d : ℚ → ℚ → ℚ → ℚ → ℚ) (s : List PropertyResponse → List PropertyResponse)
    (o : List String) (c : Cache) (q : String)
    (hq : q ≠ "") (ht : trimSpace q = "")
    (hc : cacheFind? c "" = none)
    (ho : ∀ k ∈ o, 2 ≤ k.length) :
    searchHandler d s o c q =
      some (⟨[], "Location not recognized"⟩,
        cachePut c "" ⟨[], "Location not recognized"⟩) := by
  have hfb : findBestCityMatch o "" = "" := by
    rcases bestMatchAux_spec (toLower "").data o 2 "" with ⟨heq, _⟩ | ⟨hmem, hlt, _⟩
    · exact heq
    · exfalso
      have h1 : levenshtein ([] : List Char)
          (bestMatchAux (toLower "").data o 2 "").data < 2 := hlt
      rw [levenshtein_nil] at h1
      exact absurd (ho _ hmem) (not_le.mpr h1)
  have hres : resolve o "" = none := resolve_eq_none (by decide) hfb
  have hm : cacheFind? c (toLower (trimSpace q)) = none := by
    rw [ht]
    exact hc
  rw [searchHandler, if_neg hq, searchProperties_eq_miss hm, ht,
    computeAndStore_unresolved hres,
    show toLower "" = "" from by decide]

/-- C9 witness: a single-space query on the real key set. -/
theorem searchHandler_whitespace_query_witness :
    (" " ≠ "" ∧ trimSpace " " = "" ∧ (∀ k ∈ cityKeys, 2 ≤ k.length)) ∧
    searchHandler dist0 sortByDistance cityKeys emptyCache " " =
      some (⟨[], "Location not recognized"⟩,
        cachePut emptyCache "" ⟨[], "Location not recognized"⟩) :=
  ⟨⟨by decide, by decide, by decide⟩,
    searchHandler_whitespace_query dist0 sortByDistance cityKeys emptyCache " "
      (by decide) (by decide) (by decide) (by decide)⟩

/-- C10: after a query `m` that misses the cache, has no exact match, and
fuzzy-matches key `k`, the response is stored under `k` itself; a
subsequent query with the exact spelling `k` (already trimmed and
lowercase) probes that key, hits the cache, and returns the stored
response with the cache unchanged. -/
theorem searchProperties_fuzzy_store_then_exact_hit
    (d : ℚ → ℚ → ℚ → ℚ → ℚ) (s : List PropertyResponse → List PropertyResponse)
    (o : List String) (c : Cache) (m k : String)
    (hmiss : cacheFind? c (toLower (trimSpace m)) = none)
    (hexact : lookupCity (toLower (trimSpace m)) = none)
    (hfuzzy : findBestCityMatch o (trimSpace m) = k)
    (hk : k ≠ "")
    (hkn : toLower (trimSpace k) = k) :
    (searchProperties d s o c m).2 =
      cachePut c k (searchProperties d s o c m).1 ∧
    cacheFind? (searchProperties d s o c m).2 (toLower (trimSpace k)) =
      some (searchProperties d s o c m).1 ∧
    searchProperties d s o (searchProperties d s o c m).2 k =
      ((searchProperties d s o c m).1, (searchProperties d s o c m).2) := by
  have hres : resolve o (trimSpace m) = some (k, lookupCityD k) :=
    resolve_eq_fuzzy hexact hfuzzy hk
  have hsp : searchProperties d s o c m =
      (resolvedResponse d s (lookupCityD k),
        cachePut c k (resolvedResponse d s (lookupCityD k))) := by
    rw [searchProperties_eq_miss hmiss, computeAndStore_resolved hres]
  rw [hsp]
  refine ⟨rfl, ?_, ?_⟩
  · rw [hkn]
    exact cacheFind?_cachePut_self c k _
  · exact searchProperties_eq_hit (by
      rw [hkn]
      exact cacheFind?_cachePut_self c k _)

/-- C10 witness: "udaipr" fuzzy-matches "udaipur"; querying "udaipur"
afterwards hits the cached entry. -/
theorem searchProperties_fuzzy_store_then_exact_hit_witness :
    (searchProperties dist0 sortByDistance cityKeys emptyCache "udaipr").2 =
      cachePut emptyCache "udaipur"
        (searchProperties dist0 sortByDistance cityKeys emptyCache "udaipr").1 ∧
    cacheFind? (searchProperties dist0 sortByDistance cityKeys emptyCache "udaipr").2
        (toLower (trimSpace "udaipur")) =
      some (searchProperties dist0 sortByDistance cityKeys emptyCache "udaipr").1 ∧
    searchProperties dist0 sortByDistance cityKeys
        (searchProperties dist0 sortByDistance cityKeys emptyCache "udaipr").2 "udaipur" =
      ((searchProperties dist0 sortByDistance cityKeys emptyCache "udaipr").1,
        (searchProperties dist0 sortByDistance cityKeys emptyCache "udaipr").2) :=
  searchProperties_fuzzy_store_then_exact_hit dist0 sortByDistance cityKeys
    emptyCache "udaipr" "udaipur" (by decide) (by decide) (by decide)
    (by decide) (by decide)

/-- C8 witness: a concrete repeated query returns the identical result
and cache. -/
theorem searchProperties_repeated_query_consistent_witness :
    searchProperties dist0 sortByDistance cityKeys
        (searchProperties dist0 sortByDistance cityKeys emptyCache "udaipr").2 "udaipr" =
      searchProperties dist0 sortByDistance cityKeys emptyCache "udaipr" :=
  searchProperties_repeated_query_consistent dist0 sortByDistance cityKeys
    emptyCache "udaipr"

end FormiSearch
